import Mathlib

/-!
Verification of the GLES2 hardware-buffer layer (`GLES2HardwareBuffer`).

We give a shallow embedding of `OgreGLES2HardwareBuffer.cpp`: the driver and
the binding cache become an explicit state (`GLState`), every driver call is
recorded in an event trace, and each member function becomes a Lean function
returning its result (an `Except` for functions that may throw), the updated
state and the list of driver events it issued, in order.

Compile-time configuration (`OGRE_NO_GLES3_SUPPORT`) and runtime extension
checks (`checkExtension`) are modelled by a `RenderEnv` record, together with
the outcomes of fallible driver calls (`glMapBufferRange` returning null,
`glUnmapBuffer` returning false).
-/

namespace GLES2

/-! ### Constants

GL flag and enum values, as in the GLES2 headers, and the `HardwareBuffer`
usage bits from `OgreHardwareBuffer.h`. -/

def GL_MAP_READ_BIT_EXT : Nat := 0x0001
def GL_MAP_WRITE_BIT_EXT : Nat := 0x0002
def GL_MAP_INVALIDATE_RANGE_BIT_EXT : Nat := 0x0004
def GL_MAP_FLUSH_EXPLICIT_BIT_EXT : Nat := 0x0010
def GL_WRITE_ONLY_OES : Nat := 0x88B9
def GL_STREAM_DRAW : Nat := 0x88E0
def GL_STATIC_DRAW : Nat := 0x88E4
def GL_DYNAMIC_DRAW : Nat := 0x88E8
def GL_COPY_READ_BUFFER : Nat := 0x8F36
def GL_COPY_WRITE_BUFFER : Nat := 0x8F37
def GL_ARRAY_BUFFER : Nat := 0x8892

def HBU_STATIC : Nat := 1
def HBU_DYNAMIC : Nat := 2
def HBU_WRITE_ONLY : Nat := 4
def HBU_DISCARDABLE : Nat := 8

/-- `HardwareBuffer::LockOptions` from `OgreHardwareBuffer.h`. -/
inductive LockOptions where
  | HBL_NORMAL
  | HBL_DISCARD
  | HBL_READ_ONLY
  | HBL_NO_OVERWRITE
  | HBL_WRITE_ONLY
deriving DecidableEq, Repr

/-- Errors thrown by this layer (`OGRE_EXCEPT` with `ERR_INTERNAL_ERROR`, and
`OgreAssert` failures), distinguished by their message. -/
inductive OgreErr where
  | internalError (msg : String)
  | assertionFailed (msg : String)
deriving DecidableEq, Repr

/-- One driver (or binding-cache) call, as observed on the trace. -/
inductive Event where
  /-- A call into the Binding Cache's bind-if-different operation
  (`GLES2StateCacheManager::bindGLBuffer`). -/
  | cacheBindBuffer (target bufId : Nat)
  /-- A raw `glBindBuffer` driver call, bypassing the Binding Cache. -/
  | glBindBuffer (target bufId : Nat)
  /-- `glBufferData(target, size, data, usage)`; `hasData` records whether a
  non-null source pointer was supplied. -/
  | glBufferData (target size : Nat) (hasData : Bool) (glUsage : Nat)
  /-- `glBufferSubData(target, offset, length, data)`. -/
  | glBufferSubData (target offset length : Nat)
  /-- `glMapBufferRangeEXT(target, offset, length, access)`. -/
  | glMapBufferRange (target offset length access : Nat)
  /-- `glMapBufferOES(target, access)`. -/
  | glMapBufferOES (target access : Nat)
  /-- `glFlushMappedBufferRangeEXT(target, offset, length)`. -/
  | glFlushMappedBufferRange (target offset length : Nat)
  /-- `glUnmapBufferOES(target)`. -/
  | glUnmapBufferOES (target : Nat)
  /-- `glCopyBufferSubData(readTarget, writeTarget, srcOffset, dstOffset, length)`. -/
  | glCopyBufferSubData (readTarget writeTarget srcOffset dstOffset length : Nat)
  /-- `glDeleteBuffers` on one buffer id (issued inside the Binding Cache's
  delete-and-evict operation). -/
  | glDeleteBuffer (bufId : Nat)
  /-- The CPU `memcpy` in `readData`; `srcIsNull` records whether the source
  pointer (the mapping result) was null. -/
  | memcpyToDest (srcIsNull : Bool) (length : Nat)
deriving DecidableEq, Repr

/-- Does this event represent a call through the Binding Cache's bind
operation? -/
def Event.isCacheBind : Event → Bool
  | .cacheBindBuffer _ _ => true
  | _ => false

/-- The observable driver/cache state: the buffer actually bound to each
target in the driver, the Binding Cache's record of the bound buffer per
target (0 = no record), and the set of live driver buffer allocations. -/
structure GLState where
  driverBound : Nat → Nat
  cacheEntry : Nat → Nat
  allocated : List Nat

/-- Platform configuration and driver-call outcomes:
`noGles3Support` is the compile-time `OGRE_NO_GLES3_SUPPORT` flag,
`extMapBufferRange` / `oesMapBuffer` are the runtime
`checkExtension("GL_EXT_map_buffer_range")` / `checkExtension("GL_OES_mapbuffer")`
results, `mapResult` / `oesMapResult` are the pointers returned by
`glMapBufferRangeEXT` / `glMapBufferOES` (`none` = NULL), and `unmapOk` is
the `GLboolean` returned by `glUnmapBufferOES`. -/
structure RenderEnv where
  noGles3Support : Bool
  extMapBufferRange : Bool
  oesMapBuffer : Bool
  mapResult : Option Nat
  oesMapResult : Option Nat
  unmapOk : Bool

/-- The condition `!OGRE_NO_GLES3_SUPPORT || checkExtension("GL_EXT_map_buffer_range")`
guarding the range-mapping path. -/
def hasMapBufferRange (env : RenderEnv) : Bool :=
  !env.noGles3Support || env.extMapBufferRange

/-- The `GLES2HardwareBuffer` object's immutable fields. -/
structure Buffer where
  mTarget : Nat
  mSizeInBytes : Nat
  mUsage : Nat
  mBufferId : Nat

/-- `GLES2HardwareBuffer::getGLUsage`: priority-ordered usage-hint mapping. -/
def getGLUsage (usage : Nat) : Nat :=
  if usage &&& HBU_DISCARDABLE ≠ 0 then GL_STREAM_DRAW
  else if usage &&& HBU_STATIC ≠ 0 then GL_STATIC_DRAW
  else GL_DYNAMIC_DRAW

/-- The Binding Cache's bind-if-different operation
(`GLES2StateCacheManager::bindGLBuffer`), per its contract in the spec:
idempotent, a no-op driver-wise when its record already shows `bufId` bound
to `target`, otherwise issues the driver bind and updates its record. The
returned trace event records the call into the cache itself. -/
def bindGLBuffer (target bufId : Nat) (st : GLState) : GLState × List Event :=
  if st.cacheEntry target = bufId then
    (st, [Event.cacheBindBuffer target bufId])
  else
    ({ st with
        driverBound := fun t => if t = target then bufId else st.driverBound t,
        cacheEntry := fun t => if t = target then bufId else st.cacheEntry t },
     [Event.cacheBindBuffer target bufId])

/-- Modelled from the spec: the Binding Cache's delete-and-evict operation
(`GLES2StateCacheManager::deleteGLBuffer`, whose body is not among the
provided sources). Per the spec's Binding Cache contract it "evicts cache
entry and deletes the underlying driver object", as one combined call. -/
def deleteGLBuffer (target bufId : Nat) (st : GLState) : GLState × List Event :=
  ({ st with
      cacheEntry := fun t =>
        if t = target ∧ st.cacheEntry t = bufId then 0 else st.cacheEntry t,
      allocated := st.allocated.filter (fun x => x ≠ bufId) },
   [Event.glDeleteBuffer bufId])

/-- A raw `glBindBuffer` driver call (used by `copyData`): changes the
driver binding but leaves the Binding Cache's record untouched. -/
def rawBindBuffer (target bufId : Nat) (st : GLState) : GLState :=
  { st with driverBound := fun t => if t = target then bufId else st.driverBound t }

/-- `GLES2HardwareBuffer::createBuffer`: generate a buffer id (`newId` is the
id produced by `glGenBuffers`, 0 when generation fails), fail if it is zero,
bind through the Binding Cache, and reserve `sizeInBytes` of uninitialized
storage. The debug-label call (gated on `RSC_DEBUG`) has no state effect and
is omitted from the trace. -/
def createBuffer (target sizeInBytes usage newId : Nat) (st : GLState) :
    Except OgreErr Buffer × GLState × List Event :=
  if newId = 0 then
    (Except.error (OgreErr.internalError "Cannot create GL ES buffer"), st, [])
  else
    let st0 : GLState := { st with allocated := newId :: st.allocated }
    let st1 := (bindGLBuffer target newId st0).1
    let t1 := (bindGLBuffer target newId st0).2
    (Except.ok ⟨target, sizeInBytes, usage, newId⟩, st1,
     t1 ++ [Event.glBufferData target sizeInBytes false (getGLUsage usage)])

/-- `GLES2HardwareBuffer::destroyBuffer`: if the state cache manager is
still available, ask it to delete-and-evict; otherwise do nothing. -/
def destroyBuffer (b : Buffer) (cacheAvailable : Bool) (st : GLState) :
    GLState × List Event :=
  if cacheAvailable then deleteGLBuffer b.mTarget b.mBufferId st
  else (st, [])

/-- `GLES2HardwareBuffer::lockImpl`: rebind via the Binding Cache, then pick
the range-mapping path, the legacy `GL_OES_mapbuffer` path (only compiled
when `OGRE_NO_GLES3_SUPPORT == 1`), or fall through with a null pointer;
a null mapping result throws "Buffer: Out of memory". The returned `Nat`
models the pointer handed back to the caller. -/
def lockImpl (b : Buffer) (env : RenderEnv) (offset length : Nat)
    (options : LockOptions) (st : GLState) :
    Except OgreErr Nat × GLState × List Event :=
  let st1 := (bindGLBuffer b.mTarget b.mBufferId st).1
  let t1 := (bindGLBuffer b.mTarget b.mBufferId st).2
  if hasMapBufferRange env then
    let access :=
      if b.mUsage &&& HBU_WRITE_ONLY ≠ 0 then
        let acc := GL_MAP_WRITE_BIT_EXT ||| GL_MAP_FLUSH_EXPLICIT_BIT_EXT
        if options = LockOptions.HBL_DISCARD ∨ options = LockOptions.HBL_NO_OVERWRITE then
          acc ||| GL_MAP_INVALIDATE_RANGE_BIT_EXT
        else acc
      else if options = LockOptions.HBL_READ_ONLY then GL_MAP_READ_BIT_EXT
      else GL_MAP_READ_BIT_EXT ||| GL_MAP_WRITE_BIT_EXT
    let t2 := t1 ++ [Event.glMapBufferRange b.mTarget offset length access]
    match env.mapResult with
    | none => (Except.error (OgreErr.internalError "Buffer: Out of memory"), st1, t2)
    | some p => (Except.ok p, st1, t2)  -- offset collapses to 0: pointer already offsetted
  else if env.noGles3Support ∧ env.oesMapBuffer then
    let t2 :=
      if options = LockOptions.HBL_DISCARD ∨ options = LockOptions.HBL_NO_OVERWRITE then
        t1 ++ [Event.glBufferData b.mTarget b.mSizeInBytes false (getGLUsage b.mUsage)]
      else t1
    let access := if b.mUsage &&& HBU_WRITE_ONLY ≠ 0 then GL_WRITE_ONLY_OES else 0
    let t3 := t2 ++ [Event.glMapBufferOES b.mTarget access]
    match env.oesMapResult with
    | none => (Except.error (OgreErr.internalError "Buffer: Out of memory"), st1, t3)
    | some p => (Except.ok (p + offset), st1, t3)  -- return offsetted
  else
    -- pBuffer stays NULL: fall through to the out-of-memory throw
    (Except.error (OgreErr.internalError "Buffer: Out of memory"), st1, t1)

/-- Modelled from the spec: `HardwareBuffer::lock`, the base-class wrapper
around `lockImpl` (its body is not among the provided sources; only
`lockImpl` is). Per the spec it checks the precondition
`offset + length <= sizeInBytes` and rejects an out-of-bounds lock request
before any driver call is made. -/
def lock (b : Buffer) (env : RenderEnv) (offset length : Nat)
    (options : LockOptions) (st : GLState) :
    Except OgreErr Nat × GLState × List Event :=
  if b.mSizeInBytes < offset + length then
    (Except.error (OgreErr.internalError "Lock request out of bounds"), st, [])
  else
    lockImpl b env offset length options st

/-- `GLES2HardwareBuffer::unlockImpl`: rebind via the Binding Cache; if the
usage is write-only and the range-mapping path is available, flush
`[0, lockSize)`; then, if any mapping capability is available, unmap and
throw "Buffer data corrupted, please reload" when the driver reports the
contents invalidated. -/
def unlockImpl (b : Buffer) (env : RenderEnv) (lockSize : Nat) (st : GLState) :
    Except OgreErr Unit × GLState × List Event :=
  let st1 := (bindGLBuffer b.mTarget b.mBufferId st).1
  let t1 := (bindGLBuffer b.mTarget b.mBufferId st).2
  let hmr := hasMapBufferRange env
  let t2 :=
    if b.mUsage &&& HBU_WRITE_ONLY ≠ 0 ∧ hmr then
      t1 ++ [Event.glFlushMappedBufferRange b.mTarget 0 lockSize]
    else t1
  if hmr || env.oesMapBuffer then
    let t3 := t2 ++ [Event.glUnmapBufferOES b.mTarget]
    if env.unmapOk then (Except.ok (), st1, t3)
    else (Except.error (OgreErr.internalError "Buffer data corrupted, please reload"), st1, t3)
  else
    (Except.ok (), st1, t2)

/-- `GLES2HardwareBuffer::readData`: on the range-mapping path, map
`[offset, offset+length)` read-only, `memcpy` `length` bytes into the
destination (with no null check on the mapping result), unmap, and throw
"Buffer data corrupted, please reload" if the unmap reports invalidation;
without the capability, throw "Read hardware buffer is not supported"
immediately. No Binding Cache rebind is performed. -/
def readData (b : Buffer) (env : RenderEnv) (offset length : Nat) (st : GLState) :
    Except OgreErr Unit × GLState × List Event :=
  if hasMapBufferRange env then
    let t1 := [Event.glMapBufferRange b.mTarget offset length GL_MAP_READ_BIT_EXT,
               Event.memcpyToDest env.mapResult.isNone length,
               Event.glUnmapBufferOES b.mTarget]
    if env.unmapOk then (Except.ok (), st, t1)
    else (Except.error (OgreErr.internalError "Buffer data corrupted, please reload"), st, t1)
  else
    (Except.error (OgreErr.internalError "Read hardware buffer is not supported"), st, [])

/-- `GLES2HardwareBuffer::writeData`: rebind via the Binding Cache; a write
spanning the whole buffer is a full `glBufferData` re-specification with the
source data; otherwise an optional whole-buffer discard re-reservation
(when `discardWholeBuffer`) followed by `glBufferSubData` on the sub-range. -/
def writeData (b : Buffer) (offset length : Nat) (discardWholeBuffer : Bool)
    (st : GLState) : GLState × List Event :=
  let st1 := (bindGLBuffer b.mTarget b.mBufferId st).1
  let t1 := (bindGLBuffer b.mTarget b.mBufferId st).2
  if offset = 0 ∧ length = b.mSizeInBytes then
    (st1, t1 ++ [Event.glBufferData b.mTarget b.mSizeInBytes true (getGLUsage b.mUsage)])
  else
    let t2 :=
      if discardWholeBuffer then
        t1 ++ [Event.glBufferData b.mTarget b.mSizeInBytes false (getGLUsage b.mUsage)]
      else t1
    (st1, t2 ++ [Event.glBufferSubData b.mTarget offset length])

/-- `GLES2HardwareBuffer::copyData`: when compiled with GLES3 support
(`OGRE_NO_GLES3_SUPPORT == 0`), re-specify the destination's storage sized
to `length` using raw binds on `mTarget`, bind source and destination to the
copy-read/copy-write binding points, issue the ranged copy, and unbind both
copy points; otherwise `OgreAssert(false, "GLES3 needed")`. All binds here
are raw driver binds that bypass the Binding Cache. -/
def copyData (b : Buffer) (env : RenderEnv)
    (srcBufferId srcOffset dstOffset length : Nat) (discardWholeBuffer : Bool)
    (st : GLState) : Except OgreErr Unit × GLState × List Event :=
  if !env.noGles3Support then
    let st1 := rawBindBuffer b.mTarget b.mBufferId st
    let st2 := rawBindBuffer b.mTarget 0 st1
    let st3 := rawBindBuffer GL_COPY_READ_BUFFER srcBufferId st2
    let st4 := rawBindBuffer GL_COPY_WRITE_BUFFER b.mBufferId st3
    let st5 := rawBindBuffer GL_COPY_READ_BUFFER 0 st4
    let st6 := rawBindBuffer GL_COPY_WRITE_BUFFER 0 st5
    (Except.ok (), st6,
     [Event.glBindBuffer b.mTarget b.mBufferId,
      Event.glBufferData b.mTarget length false (getGLUsage b.mUsage),
      Event.glBindBuffer b.mTarget 0,
      Event.glBindBuffer GL_COPY_READ_BUFFER srcBufferId,
      Event.glBindBuffer GL_COPY_WRITE_BUFFER b.mBufferId,
      Event.glCopyBufferSubData GL_COPY_READ_BUFFER GL_COPY_WRITE_BUFFER srcOffset dstOffset length,
      Event.glBindBuffer GL_COPY_READ_BUFFER 0,
      Event.glBindBuffer GL_COPY_WRITE_BUFFER 0])
  else
    (Except.error (OgreErr.assertionFailed "GLES3 needed"), st, [])

/-! ### Concrete fixtures used by witnesses and counterexamples -/

/-- A GLES3 platform: range mapping available, mapping succeeds, unmap ok. -/
def envGles3 : RenderEnv :=
  { noGles3Support := false, extMapBufferRange := false, oesMapBuffer := false,
    mapResult := some 100, oesMapResult := none, unmapOk := true }

/-- A GLES2-only platform with no mapping extension at all. -/
def envBare : RenderEnv :=
  { noGles3Support := true, extMapBufferRange := false, oesMapBuffer := false,
    mapResult := some 100, oesMapResult := none, unmapOk := true }

/-- A GLES3 platform on which `glMapBufferRangeEXT` returns NULL. -/
def envMapFail : RenderEnv :=
  { noGles3Support := false, extMapBufferRange := false, oesMapBuffer := false,
    mapResult := none, oesMapResult := none, unmapOk := true }

/-- A 256-byte write-only buffer bound to the array-buffer target. -/
def bufW : Buffer :=
  { mTarget := GL_ARRAY_BUFFER, mSizeInBytes := 256, mUsage := HBU_WRITE_ONLY,
    mBufferId := 1 }

/-- A 256-byte default-usage buffer. -/
def bufR : Buffer :=
  { mTarget := GL_ARRAY_BUFFER, mSizeInBytes := 256, mUsage := HBU_DYNAMIC,
    mBufferId := 1 }

/-- An initial state: nothing bound, no cache records, buffer 1 allocated. -/
def st0 : GLState :=
  { driverBound := fun _ => 0, cacheEntry := fun _ => 0, allocated := [1] }

/-! ### Theorems -/

/-- The Binding Cache's bind operation always records exactly one
cache-bind call on the trace. -/
theorem bindGLBuffer_trace (target bufId : Nat) (st : GLState) :
    (bindGLBuffer target bufId st).2 = [Event.cacheBindBuffer target bufId] := by
  unfold bindGLBuffer
  split <;> rfl

/-- C1: on the range-mapping path of `lockImpl`, the access flags passed to
`glMapBufferRangeEXT` are derived exactly as the spec states: write-oriented
usage gives write-access plus explicit-flush, plus range-invalidation when
the lock mode is discard or no-overwrite; otherwise a read-only lock mode
gives read-access only, and any other mode gives read-plus-write access. -/
theorem C1_lock_access_flags (b : Buffer) (env : RenderEnv)
    (offset length : Nat) (options : LockOptions) (st : GLState)
    (h : hasMapBufferRange env = true) :
    (lockImpl b env offset length options st).2.2 =
      [Event.cacheBindBuffer b.mTarget b.mBufferId,
       Event.glMapBufferRange b.mTarget offset length
        (if b.mUsage &&& HBU_WRITE_ONLY ≠ 0 then
           if options = LockOptions.HBL_DISCARD ∨
              options = LockOptions.HBL_NO_OVERWRITE then
             GL_MAP_WRITE_BIT_EXT ||| GL_MAP_FLUSH_EXPLICIT_BIT_EXT |||
               GL_MAP_INVALIDATE_RANGE_BIT_EXT
           else
             GL_MAP_WRITE_BIT_EXT ||| GL_MAP_FLUSH_EXPLICIT_BIT_EXT
         else if options = LockOptions.HBL_READ_ONLY then
           GL_MAP_READ_BIT_EXT
         else
           GL_MAP_READ_BIT_EXT ||| GL_MAP_WRITE_BIT_EXT)] := by
  cases hm : env.mapResult <;>
    simp [lockImpl, h, hm, bindGLBuffer_trace]

/-- Witness for C1 at a concrete input: write-only usage with discard mode
yields write + explicit-flush + invalidate-range. -/
theorem C1_lock_access_flags_witness :
    (lockImpl bufW envGles3 0 256 LockOptions.HBL_DISCARD st0).2.2 =
      [Event.cacheBindBuffer GL_ARRAY_BUFFER 1,
       Event.glMapBufferRange GL_ARRAY_BUFFER 0 256
         (GL_MAP_WRITE_BIT_EXT ||| GL_MAP_FLUSH_EXPLICIT_BIT_EXT |||
           GL_MAP_INVALIDATE_RANGE_BIT_EXT)] := by
  have h := C1_lock_access_flags bufW envGles3 0 256 LockOptions.HBL_DISCARD st0
    (by decide)
  simpa using h

/-- C2: in `unlockImpl`, when usage is write-oriented and the range-mapping
capability is available, the driver is asked (after the cache rebind) to
flush exactly `[0, lockSize)` and then to unmap; whenever any mapping
capability is available the unmap call is made; and the call fails with the
corruption error exactly when an unmap call is made and reports `false`. -/
theorem C2_unlock_flush_and_corruption (b : Buffer) (env : RenderEnv)
    (lockSize : Nat) (st : GLState) :
    (b.mUsage &&& HBU_WRITE_ONLY ≠ 0 ∧ hasMapBufferRange env = true →
      (unlockImpl b env lockSize st).2.2 =
        [Event.cacheBindBuffer b.mTarget b.mBufferId,
         Event.glFlushMappedBufferRange b.mTarget 0 lockSize,
         Event.glUnmapBufferOES b.mTarget]) ∧
    ((hasMapBufferRange env || env.oesMapBuffer) = true →
      Event.glUnmapBufferOES b.mTarget ∈ (unlockImpl b env lockSize st).2.2) ∧
    ((unlockImpl b env lockSize st).1 =
        Except.error (OgreErr.internalError "Buffer data corrupted, please reload") ↔
      (hasMapBufferRange env || env.oesMapBuffer) = true ∧ env.unmapOk = false) := by
  by_cases hw : b.mUsage &&& HBU_WRITE_ONLY ≠ 0 <;>
    cases hmr : hasMapBufferRange env <;>
    cases hoes : env.oesMapBuffer <;>
    cases hok : env.unmapOk <;>
    simp [unlockImpl, bindGLBuffer_trace, hw, hmr, hoes, hok]

/-- Witness for C2 at a concrete input: a write-only buffer on a GLES3
platform flushes `[0, 64)` then unmaps, and an unmap reporting `false`
yields the corruption error. -/
theorem C2_unlock_flush_and_corruption_witness :
    (unlockImpl bufW envGles3 64 st0).2.2 =
      [Event.cacheBindBuffer GL_ARRAY_BUFFER 1,
       Event.glFlushMappedBufferRange GL_ARRAY_BUFFER 0 64,
       Event.glUnmapBufferOES GL_ARRAY_BUFFER] ∧
    (unlockImpl bufW { envGles3 with unmapOk := false } 64 st0).1 =
      Except.error (OgreErr.internalError "Buffer data corrupted, please reload") := by
  constructor
  · have h := (C2_unlock_flush_and_corruption bufW envGles3 64 st0).1 (by decide)
    simpa using h
  · have h := (C2_unlock_flush_and_corruption bufW
      { envGles3 with unmapOk := false } 64 st0).2.2.mpr (by decide)
    simpa using h

/-- C3: `readData` on a platform lacking the range-mapping capability fails
immediately with the unsupported-operation error, issuing no driver call and
leaving the state untouched; with the capability it maps
`[offset, offset+length)` read-only, copies `length` bytes into the
destination, and unmaps. -/
theorem C3_readData_capability (b : Buffer) (env : RenderEnv)
    (offset length : Nat) (st : GLState) :
    (hasMapBufferRange env = false →
      (readData b env offset length st).1 =
        Except.error (OgreErr.internalError "Read hardware buffer is not supported") ∧
      (readData b env offset length st).2.2 = [] ∧
      (readData b env offset length st).2.1 = st) ∧
    (hasMapBufferRange env = true →
      (readData b env offset length st).2.2 =
        [Event.glMapBufferRange b.mTarget offset length GL_MAP_READ_BIT_EXT,
         Event.memcpyToDest env.mapResult.isNone length,
         Event.glUnmapBufferOES b.mTarget]) := by
  cases hmr : hasMapBufferRange env <;>
    cases hok : env.unmapOk <;>
    simp [readData, hmr, hok]

/-- Witness for C3 at concrete inputs: the bare GLES2 platform rejects the
read with no driver call; the GLES3 platform maps, copies and unmaps. -/
theorem C3_readData_capability_witness :
    ((readData bufR envBare 0 256 st0).1 =
        Except.error (OgreErr.internalError "Read hardware buffer is not supported") ∧
      (readData bufR envBare 0 256 st0).2.2 = []) ∧
    (readData bufR envGles3 0 256 st0).2.2 =
      [Event.glMapBufferRange GL_ARRAY_BUFFER 0 256 GL_MAP_READ_BIT_EXT,
       Event.memcpyToDest false 256,
       Event.glUnmapBufferOES GL_ARRAY_BUFFER] := by
  refine ⟨⟨?_, ?_⟩, ?_⟩
  · exact ((C3_readData_capability bufR envBare 0 256 st0).1 (by decide)).1
  · exact ((C3_readData_capability bufR envBare 0 256 st0).1 (by decide)).2.1
  · have h := (C3_readData_capability bufR envGles3 0 256 st0).2 (by decide)
    simpa using h

/-- C4: at a concrete input on which the driver mapping fails
(`glMapBufferRangeEXT` returns NULL), `readData` still performs the copy
into the destination, with the null mapping result as the copy's source —
the code has no null check between the map call and the `memcpy`. -/
theorem C4_readData_copies_despite_null_map :
    Event.memcpyToDest true 256 ∈ (readData bufR envMapFail 0 256 st0).2.2 := by
  decide

/-- C5: `writeData` rebinds through the Binding Cache before any driver data
call in every case; a write spanning the whole buffer is a single full
re-specification carrying the source data; a partial write with
`discardWholeBuffer` first re-reserves the whole buffer with undefined
contents and then uploads the sub-range; a partial write without discard
only uploads the sub-range. -/
theorem C5_writeData_paths (b : Buffer) (offset length : Nat)
    (discardWholeBuffer : Bool) (st : GLState) :
    (offset = 0 ∧ length = b.mSizeInBytes →
      (writeData b offset length discardWholeBuffer st).2 =
        [Event.cacheBindBuffer b.mTarget b.mBufferId,
         Event.glBufferData b.mTarget b.mSizeInBytes true (getGLUsage b.mUsage)]) ∧
    (¬(offset = 0 ∧ length = b.mSizeInBytes) →
      (writeData b offset length discardWholeBuffer st).2 =
        if discardWholeBuffer then
          [Event.cacheBindBuffer b.mTarget b.mBufferId,
           Event.glBufferData b.mTarget b.mSizeInBytes false (getGLUsage b.mUsage),
           Event.glBufferSubData b.mTarget offset length]
        else
          [Event.cacheBindBuffer b.mTarget b.mBufferId,
           Event.glBufferSubData b.mTarget offset length]) := by
  by_cases hfull : offset = 0 ∧ length = b.mSizeInBytes <;>
    cases discardWholeBuffer <;>
    simp [writeData, bindGLBuffer_trace, hfull]

/-- Witness for C5 at concrete inputs: a whole-buffer write, a partial write
with discard, and a partial write without discard. -/
theorem C5_writeData_paths_witness :
    (writeData bufR 0 256 false st0).2 =
      [Event.cacheBindBuffer GL_ARRAY_BUFFER 1,
       Event.glBufferData GL_ARRAY_BUFFER 256 true GL_DYNAMIC_DRAW] ∧
    (writeData bufR 128 128 true st0).2 =
      [Event.cacheBindBuffer GL_ARRAY_BUFFER 1,
       Event.glBufferData GL_ARRAY_BUFFER 256 false GL_DYNAMIC_DRAW,
       Event.glBufferSubData GL_ARRAY_BUFFER 128 128] ∧
    (writeData bufR 128 128 false st0).2 =
      [Event.cacheBindBuffer GL_ARRAY_BUFFER 1,
       Event.glBufferSubData GL_ARRAY_BUFFER 128 128] := by
  refine ⟨?_, ?_, ?_⟩
  · have h := (C5_writeData_paths bufR 0 256 false st0).1 (by decide)
    simpa using h
  · have h := (C5_writeData_paths bufR 128 128 true st0).2 (by decide)
    simpa using h
  · have h := (C5_writeData_paths bufR 128 128 false st0).2 (by decide)
    simpa using h

/-- C6: a `lock` request with `offset + length > sizeInBytes` is rejected
with a precondition error before any driver or cache call: the result is the
out-of-bounds error, the trace is empty (no mapping attempted) and the state
is unchanged. The bounds check lives in the base-class `lock` wrapper,
modelled from the spec. -/
theorem C6_lock_out_of_bounds_rejected (b : Buffer) (env : RenderEnv)
    (offset length : Nat) (options : LockOptions) (st : GLState)
    (h : b.mSizeInBytes < offset + length) :
    (lock b env offset length options st).1 =
      Except.error (OgreErr.internalError "Lock request out of bounds") ∧
    (lock b env offset length options st).2.2 = [] ∧
    (lock b env offset length options st).2.1 = st := by
  simp [lock, h]

/-- Witness for C6 at a concrete input: locking `[200, 300)` on a 256-byte
buffer is rejected with an empty trace. -/
theorem C6_lock_out_of_bounds_rejected_witness :
    bufR.mSizeInBytes < 200 + 100 ∧
    (lock bufR envGles3 200 100 LockOptions.HBL_NORMAL st0).2.2 = [] :=
  ⟨by decide,
   (C6_lock_out_of_bounds_rejected bufR envGles3 200 100 LockOptions.HBL_NORMAL
      st0 (by decide)).2.1⟩

/-- After the Binding Cache's bind operation, its record for the target is
the requested buffer id. -/
theorem bindGLBuffer_cacheEntry (target bufId : Nat) (st : GLState) :
    (bindGLBuffer target bufId st).1.cacheEntry target = bufId := by
  unfold bindGLBuffer
  split <;> simp_all

/-- The Binding Cache's delete-and-evict call leaves no record of the
deleted (non-zero) buffer id on its target. -/
theorem deleteGLBuffer_evicts (target bufId : Nat) (st : GLState)
    (h : bufId ≠ 0) :
    (deleteGLBuffer target bufId st).1.cacheEntry target ≠ bufId := by
  unfold deleteGLBuffer
  by_cases h2 : st.cacheEntry target = bufId <;> simp_all <;> omega

/-- The Binding Cache's delete-and-evict call removes the buffer id from the
live allocations. -/
theorem deleteGLBuffer_frees (target bufId : Nat) (st : GLState) :
    bufId ∉ (deleteGLBuffer target bufId st).1.allocated := by
  simp [deleteGLBuffer]

/-- C7 counterexample: `readData` issues driver calls (its trace is
non-empty) yet contains no Binding Cache bind at all, refuting the claim
that every data operation rebinds through the Binding Cache before touching
the driver. -/
theorem C7_rebind_counterexample :
    (readData bufR envGles3 0 256 st0).2.2 ≠ [] ∧
    ((readData bufR envGles3 0 256 st0).2.2.filter Event.isCacheBind) = [] := by
  decide

/-- C7 (amended): `lockImpl`, `unlockImpl` and `writeData` rebind through
the Binding Cache before any driver call (their traces start with the
cache-bind call); `readData` performs no Binding Cache rebind at all;
`copyData` performs no Binding Cache rebind either — it uses raw driver
binds — and on the supported path it leaves the Binding Cache's record for
the destination's target unchanged while the actual driver binding for that
target ends at zero, so the cache record and the actual driver binding can
disagree after the operation. -/
theorem C7_rebind_amended (b : Buffer) (env : RenderEnv)
    (offset length lockSize srcBufferId srcOffset dstOffset : Nat)
    (options : LockOptions) (d : Bool) (st : GLState) :
    (lockImpl b env offset length options st).2.2.head? =
      some (Event.cacheBindBuffer b.mTarget b.mBufferId) ∧
    (unlockImpl b env lockSize st).2.2.head? =
      some (Event.cacheBindBuffer b.mTarget b.mBufferId) ∧
    (writeData b offset length d st).2.head? =
      some (Event.cacheBindBuffer b.mTarget b.mBufferId) ∧
    ((readData b env offset length st).2.2.filter Event.isCacheBind) = [] ∧
    ((copyData b env srcBufferId srcOffset dstOffset length d st).2.2.filter
        Event.isCacheBind) = [] ∧
    (env.noGles3Support = false →
      (copyData b env srcBufferId srcOffset dstOffset length d st).2.1.cacheEntry
          b.mTarget = st.cacheEntry b.mTarget ∧
      (copyData b env srcBufferId srcOffset dstOffset length d st).2.1.driverBound
          b.mTarget = 0) := by
  refine ⟨?_, ?_, ?_, ?_, ?_, ?_⟩
  · cases hmr : hasMapBufferRange env <;>
      cases hoes : env.oesMapBuffer <;>
      cases hg : env.noGles3Support <;>
      cases hm : env.mapResult <;>
      cases ho : env.oesMapResult <;>
      simp_all [lockImpl, bindGLBuffer_trace, hasMapBufferRange] <;>
      split <;> simp [bindGLBuffer_trace]
  · cases hmr : hasMapBufferRange env <;>
      cases hoes : env.oesMapBuffer <;>
      cases hok : env.unmapOk <;>
      by_cases hw : b.mUsage &&& HBU_WRITE_ONLY ≠ 0 <;>
      simp [unlockImpl, bindGLBuffer_trace, hmr, hoes, hok, hw]
  · by_cases hfull : offset = 0 ∧ length = b.mSizeInBytes <;>
      cases d <;>
      simp [writeData, bindGLBuffer_trace, hfull]
  · cases hmr : hasMapBufferRange env <;>
      cases hok : env.unmapOk <;>
      simp [readData, hmr, hok, Event.isCacheBind]
  · cases hg : env.noGles3Support <;>
      simp [copyData, hg, Event.isCacheBind]
  · intro hg
    constructor
    · simp [copyData, hg, rawBindBuffer]
    · simp only [copyData, hg, rawBindBuffer, Bool.not_false, if_true]
      split_ifs <;> simp_all

/-- Witness for C7 (amended) at concrete inputs. -/
theorem C7_rebind_amended_witness :
    (writeData bufR 0 256 false st0).2.head? =
      some (Event.cacheBindBuffer GL_ARRAY_BUFFER 1) ∧
    (copyData bufR envGles3 2 0 0 64 false st0).2.1.cacheEntry GL_ARRAY_BUFFER =
      st0.cacheEntry GL_ARRAY_BUFFER ∧
    (copyData bufR envGles3 2 0 0 64 false st0).2.1.driverBound GL_ARRAY_BUFFER = 0 := by
  have h := C7_rebind_amended bufR envGles3 0 256 64 2 0 0
    LockOptions.HBL_NORMAL false st0
  exact ⟨h.2.2.1, (h.2.2.2.2.2 (by decide)).1, (h.2.2.2.2.2 (by decide)).2⟩

/-- C8 counterexample: with the state cache already torn down,
`destroyBuffer` at this concrete input performs no driver call at all — the
driver allocation for buffer 1 is still live afterwards — refuting the
claim that destroy still releases the driver allocation, skipping only the
eviction, when the cache is unavailable. -/
theorem C8_destroy_counterexample :
    (destroyBuffer bufR false st0).1.allocated = [1] ∧
    (destroyBuffer bufR false st0).2 = [] := by
  decide

/-- C8 (amended): with the Binding Cache available, `destroyBuffer` evicts
the handle's cache record and removes the driver allocation atomically, in
one combined delete-and-evict cache call; when the cache has already been
torn down that combined call is skipped entirely, so neither eviction nor
driver deletion occurs and the state is returned unchanged; and
`createBuffer` immediately followed by `destroyBuffer` (cache available)
leaves no residual Binding Cache entry and no allocation for the handle. -/
theorem C8_destroy_amended (b : Buffer) (st stB : GLState)
    (target sizeInBytes usage newId : Nat) (hb : b.mBufferId ≠ 0)
    (hid : newId ≠ 0) :
    (destroyBuffer b true st).1.cacheEntry b.mTarget ≠ b.mBufferId ∧
    b.mBufferId ∉ (destroyBuffer b true st).1.allocated ∧
    (destroyBuffer b true st).2 = [Event.glDeleteBuffer b.mBufferId] ∧
    destroyBuffer b false stB = (stB, []) ∧
    (destroyBuffer ⟨target, sizeInBytes, usage, newId⟩ true
        (createBuffer target sizeInBytes usage newId st).2.1).1.cacheEntry
      target ≠ newId ∧
    newId ∉ (destroyBuffer ⟨target, sizeInBytes, usage, newId⟩ true
        (createBuffer target sizeInBytes usage newId st).2.1).1.allocated := by
  refine ⟨?_, ?_, ?_, ?_, ?_, ?_⟩
  · simpa [destroyBuffer] using deleteGLBuffer_evicts b.mTarget b.mBufferId st hb
  · simpa [destroyBuffer] using deleteGLBuffer_frees b.mTarget b.mBufferId st
  · simp [destroyBuffer, deleteGLBuffer]
  · simp [destroyBuffer]
  · simpa [destroyBuffer] using
      deleteGLBuffer_evicts target newId
        (createBuffer target sizeInBytes usage newId st).2.1 hid
  · simpa [destroyBuffer] using
      deleteGLBuffer_frees target newId
        (createBuffer target sizeInBytes usage newId st).2.1

/-- Witness for C8 (amended) at a concrete input. -/
theorem C8_destroy_amended_witness :
    (destroyBuffer bufR true st0).1.cacheEntry GL_ARRAY_BUFFER ≠ 1 ∧
    (1 : Nat) ∉ (destroyBuffer bufR true st0).1.allocated ∧
    (destroyBuffer ⟨GL_ARRAY_BUFFER, 256, HBU_DYNAMIC, 7⟩ true
        (createBuffer GL_ARRAY_BUFFER 256 HBU_DYNAMIC 7 st0).2.1).1.cacheEntry
      GL_ARRAY_BUFFER ≠ 7 := by
  have h := C8_destroy_amended bufR st0 st0 GL_ARRAY_BUFFER 256 HBU_DYNAMIC 7
    (by decide) (by decide)
  exact ⟨h.1, h.2.1, h.2.2.2.2.1⟩

/-- C9: without the device-to-device copy capability (`OGRE_NO_GLES3_SUPPORT`),
`copyData` is a hard assertion failure with no driver call and no state
change; with it, the call succeeds and its driver trace is exactly: the
destination storage re-specification sized to `length` (bracketed by raw
binds of the destination on its own target), binds of source and destination
to the two distinct copy binding points, the ranged copy
`[srcOffset, srcOffset+length) → [dstOffset, dstOffset+length)`, and the
unbinding of both copy points. -/
theorem C9_copyData_paths (b : Buffer) (env : RenderEnv)
    (srcBufferId srcOffset dstOffset length : Nat) (d : Bool) (st : GLState) :
    GL_COPY_READ_BUFFER ≠ GL_COPY_WRITE_BUFFER ∧
    (env.noGles3Support = true →
      copyData b env srcBufferId srcOffset dstOffset length d st =
        (Except.error (OgreErr.assertionFailed "GLES3 needed"), st, [])) ∧
    (env.noGles3Support = false →
      (copyData b env srcBufferId srcOffset dstOffset length d st).1 =
        Except.ok () ∧
      (copyData b env srcBufferId srcOffset dstOffset length d st).2.2 =
        [Event.glBindBuffer b.mTarget b.mBufferId,
         Event.glBufferData b.mTarget length false (getGLUsage b.mUsage),
         Event.glBindBuffer b.mTarget 0,
         Event.glBindBuffer GL_COPY_READ_BUFFER srcBufferId,
         Event.glBindBuffer GL_COPY_WRITE_BUFFER b.mBufferId,
         Event.glCopyBufferSubData GL_COPY_READ_BUFFER GL_COPY_WRITE_BUFFER
           srcOffset dstOffset length,
         Event.glBindBuffer GL_COPY_READ_BUFFER 0,
         Event.glBindBuffer GL_COPY_WRITE_BUFFER 0]) := by
  refine ⟨by decide, ?_, ?_⟩ <;>
    · intro hg
      simp [copyData, hg]

/-- Witness for C9 at concrete inputs: the GLES2-only platform asserts with
an empty trace; the GLES3 platform issues the full bind/copy sequence. -/
theorem C9_copyData_paths_witness :
    copyData bufR envBare 2 0 0 64 false st0 =
      (Except.error (OgreErr.assertionFailed "GLES3 needed"), st0, []) ∧
    (copyData bufR envGles3 2 16 32 64 false st0).2.2 =
      [Event.glBindBuffer GL_ARRAY_BUFFER 1,
       Event.glBufferData GL_ARRAY_BUFFER 64 false GL_DYNAMIC_DRAW,
       Event.glBindBuffer GL_ARRAY_BUFFER 0,
       Event.glBindBuffer GL_COPY_READ_BUFFER 2,
       Event.glBindBuffer GL_COPY_WRITE_BUFFER 1,
       Event.glCopyBufferSubData GL_COPY_READ_BUFFER GL_COPY_WRITE_BUFFER 16 32 64,
       Event.glBindBuffer GL_COPY_READ_BUFFER 0,
       Event.glBindBuffer GL_COPY_WRITE_BUFFER 0] := by
  constructor
  · exact (C9_copyData_paths bufR envBare 2 0 0 64 false st0).2.1 (by decide)
  · have h := ((C9_copyData_paths bufR envGles3 2 16 32 64 false st0).2.2
      (by decide)).2
    simpa using h

/-- C10: `copyData` does not depend on `discardWholeBuffer` at all — two
calls differing only in that flag produce identical results (same outcome,
same final state, same driver trace) — and on the supported path the
destination storage re-specification sized to `length` occurs for either
value of the flag. -/
theorem C10_copyData_discard_independent (b : Buffer) (env : RenderEnv)
    (srcBufferId srcOffset dstOffset length : Nat) (st : GLState) :
    copyData b env srcBufferId srcOffset dstOffset length true st =
      copyData b env srcBufferId srcOffset dstOffset length false st ∧
    (env.noGles3Support = false → ∀ d : Bool,
      Event.glBufferData b.mTarget length false (getGLUsage b.mUsage) ∈
        (copyData b env srcBufferId srcOffset dstOffset length d st).2.2) := by
  refine ⟨rfl, ?_⟩
  intro hg d
  simp [copyData, hg]

/-- Witness for C10 at a concrete input. -/
theorem C10_copyData_discard_independent_witness :
    copyData bufR envGles3 2 0 0 64 true st0 =
      copyData bufR envGles3 2 0 0 64 false st0 ∧
    Event.glBufferData GL_ARRAY_BUFFER 64 false GL_DYNAMIC_DRAW ∈
      (copyData bufR envGles3 2 0 0 64 true st0).2.2 := by
  have h := C10_copyData_discard_independent bufR envGles3 2 0 0 64 st0
  refine ⟨h.1, ?_⟩
  have h2 := h.2 (by decide) true
  simpa using h2

end GLES2
